import Mathlib

/-!
Shallow embedding of src/main.py, class AzureVisionOpenAIIntegration: an
image-description pipeline gluing an external computer-vision service and an
external chat-completion service.  External effects (the service calls, the
clock reads, the file write) are modelled as explicit outcome values carried
in a World record; the pure data flow of the Python code is translated
function by function.  Exceptions are modelled with Except: a raised
exception is an Except.error carrying the message text.
-/

namespace AzureVision

/-- JSON values, as built by the Python code and serialized with json.dump. -/
inductive Json where
  | str (s : String)
  | num (q : Rat)
  | arr (elems : List Json)
  | obj (fields : List (String × Json))

/-- Key list of a JSON object (insertion order, as Python dicts preserve it). -/
def Json.keys : Json → List String
  | .obj fields => fields.map Prod.fst
  | _ => []

/-- A caption item of either vision API: a text and a confidence. -/
structure CaptionResult where
  text : String
  confidence : Rat
deriving DecidableEq

/-- A dense-caption item as kept in the normalized analysis. -/
structure DenseCaption where
  text : String
  confidence : Rat
deriving DecidableEq

/-- A tag item as kept in the normalized analysis. -/
structure TagResult where
  name : String
  confidence : Rat
deriving DecidableEq

/-- Bounding box of the new unified API and of the normalized analysis. -/
structure BoundingBox where
  x : Int
  y : Int
  width : Int
  height : Int
deriving DecidableEq

/-- Detected object of the new unified API and of the normalized analysis. -/
structure DetectedObject where
  name : String
  confidence : Rat
  bounding_box : BoundingBox
deriving DecidableEq

/-- Response of the new unified analyze call (main.py lines 150-153): the four
requested features, each possibly absent (None in Python). -/
structure NewVisionResult where
  caption : Option CaptionResult
  dense_captions : Option (List DenseCaption)
  tags : Option (List TagResult)
  objects : Option (List DetectedObject)
deriving DecidableEq

/-- Response of the legacy describe_image_in_stream call. -/
structure DescribeResults where
  captions : List CaptionResult
deriving DecidableEq

/-- A tag of the legacy tag_image_in_stream response. -/
structure LegacyTag where
  name : String
  confidence : Rat
deriving DecidableEq

/-- Response of the legacy tag_image_in_stream call. -/
structure TagsResults where
  tags : List LegacyTag
deriving DecidableEq

/-- Rectangle of the legacy detect_objects_in_stream response, with the legacy
field names w and h. -/
structure Rectangle where
  x : Int
  y : Int
  w : Int
  h : Int
deriving DecidableEq

/-- Object of the legacy detect_objects_in_stream response, with the legacy
field name object_property. -/
structure LegacyObject where
  object_property : String
  confidence : Rat
  rectangle : Rectangle
deriving DecidableEq

/-- Response of the legacy detect_objects_in_stream call. -/
structure DetectObjectsResults where
  objects : List LegacyObject
deriving DecidableEq

/-- The normalized analysis dict built by analyze_image in both branches. -/
structure AnalysisResult where
  caption : String
  confidence : Rat
  dense_captions : List DenseCaption
  tags : List TagResult
  objects : List DetectedObject
deriving DecidableEq

/-- The new-API branch of analyze_image (main.py lines 156-180): fields default
to the empty string, zero, or the empty list when the response holds nothing. -/
def organizeNew (result : NewVisionResult) : AnalysisResult :=
  { caption := match result.caption with
      | some c => c.text
      | none => ""
    confidence := match result.caption with
      | some c => c.confidence
      | none => 0
    dense_captions := (result.dense_captions.getD []).map
      (fun c => { text := c.text, confidence := c.confidence })
    tags := (result.tags.getD []).map
      (fun t => { name := t.name, confidence := t.confidence })
    objects := (result.objects.getD []).map
      (fun o => { name := o.name, confidence := o.confidence,
                  bounding_box := { x := o.bounding_box.x, y := o.bounding_box.y,
                                    width := o.bounding_box.width,
                                    height := o.bounding_box.height } }) }

/-- The legacy branch of analyze_image (main.py lines 200-225): the first
caption of the describe response becomes the caption, the legacy field names
object_property, rectangle.w and rectangle.h are mapped to the unified names. -/
def organizeLegacy (describe_results : DescribeResults) (tags_results : TagsResults)
    (detect_objects_results : DetectObjectsResults) : AnalysisResult :=
  { caption := match describe_results.captions with
      | c :: _ => c.text
      | [] => ""
    confidence := match describe_results.captions with
      | c :: _ => c.confidence
      | [] => 0
    dense_captions := describe_results.captions.map
      (fun c => { text := c.text, confidence := c.confidence })
    tags := tags_results.tags.map
      (fun t => { name := t.name, confidence := t.confidence })
    objects := detect_objects_results.objects.map
      (fun o => { name := o.object_property, confidence := o.confidence,
                  bounding_box := { x := o.rectangle.x, y := o.rectangle.y,
                                    width := o.rectangle.w,
                                    height := o.rectangle.h } }) }

/-- Outcome of the vision stage for one image: either some exception is raised
on the way (file read or network call), or the new unified API returned a
response, or the three legacy calls returned their three responses. -/
inductive VisionOutcome where
  | raises (msg : String)
  | newApi (result : NewVisionResult)
  | legacyApi (describe_results : DescribeResults) (tags_results : TagsResults)
      (detect_objects_results : DetectObjectsResults)

/-- analyze_image (main.py lines 122-227): returns the normalized analysis, or
propagates the raised exception. -/
def analyze_image : VisionOutcome → Except String AnalysisResult
  | .raises msg => .error msg
  | .newApi result => .ok (organizeNew result)
  | .legacyApi d t o => .ok (organizeLegacy d t o)

/-- Outcome of the chat-completion stage: the lookup of deployment_name in the
config can raise KeyError before the try block of generate_text; inside the
try, the create call either raises or returns its content. -/
inductive ChatOutcome where
  | deploymentKeyMissing
  | raises (msg : String)
  | returns (content : String)

/-- generate_text (main.py lines 229-278): an error of the completion call is
caught locally and turned into a placeholder string embedding the message; the
KeyError from the deployment_name lookup happens before the try block and
propagates to the caller. -/
def generate_text (chat : ChatOutcome) : Except String String :=
  match chat with
  | .deploymentKeyMissing => .error "KeyError: deployment_name"
  | .raises e => .ok ("Não foi possível gerar uma descrição. Erro: " ++ e)
  | .returns content => .ok content

/-- The per-image result dict of process_image: the success variant with the
keys timestamp, image_path, analysis, generated_text, or the error variant
with the keys timestamp, image_path, error. -/
inductive ProcessedRecord where
  | success (timestamp : String) (image_path : String) (analysis : AnalysisResult)
      (generated_text : String)
  | failure (timestamp : String) (image_path : String) (error : String)
deriving DecidableEq

/-- Whether a record is the success variant. -/
def ProcessedRecord.isSuccess : ProcessedRecord → Bool
  | .success _ _ _ _ => true
  | .failure _ _ _ => false

/-- os.path.basename for a POSIX path: the part after the last slash. -/
def basename (p : String) : String :=
  String.mk ((p.data.reverse.takeWhile (fun c => c ≠ '/')).reverse)

/-- Helper for splitext: split a character list at its last dot, returning the
part before the dot and the part from the dot on; none when there is no dot. -/
def splitLastDot : List Char → Option (List Char × List Char)
  | [] => none
  | c :: cs =>
    match splitLastDot cs with
    | some (pre, suf) => some (c :: pre, suf)
    | none => if c = '.' then some ([], c :: cs) else none

/-- os.path.splitext on a POSIX path with no directory separator, which is how
the program always calls it (on a basename in _save_result, on a listed file
name in process_all_images): split off the extension at the last dot, except
when every character before that dot is itself a dot, in which case there is
no extension. -/
def splitext (p : String) : String × String :=
  match splitLastDot p.data with
  | some (pre, suf) =>
    if pre.any (fun c => c ≠ '.') then (String.mk pre, String.mk suf) else (p, "")
  | none => (p, "")

/-- Decimal digits of a natural number, least significant first, with fuel for
structural recursion; the fuel is always taken larger than the number. -/
def natDigitsRevFuel : Nat → Nat → List Nat
  | 0, _ => []
  | fuel + 1, n => if n < 10 then [n] else n % 10 :: natDigitsRevFuel fuel (n / 10)

/-- Decimal digits of a natural number, least significant first. -/
def natDigitsRev (n : Nat) : List Nat := natDigitsRevFuel (n + 1) n

/-- The character of a decimal digit. -/
def digitChar (d : Nat) : Char := Char.ofNat (48 + d)

/-- Decimal rendering of a natural number, modelling the Python str() applied
to the non-negative value int(time.time()). -/
def natRepr (n : Nat) : String := String.mk ((natDigitsRev n).reverse.map digitChar)

/-- The output path computed by _save_result (main.py lines 326-329). -/
def savePath (image_path : String) (unixTime : Nat) : String :=
  "output/" ++ (splitext (basename image_path)).1 ++ "_" ++ natRepr unixTime ++ ".json"

/-- JSON serialization of a bounding box, as _save_result writes it. -/
def boundingBoxToJson (b : BoundingBox) : Json :=
  .obj [("x", .num b.x), ("y", .num b.y), ("width", .num b.width),
        ("height", .num b.height)]

/-- JSON serialization of the normalized analysis, as _save_result writes it. -/
def analysisToJson (a : AnalysisResult) : Json :=
  .obj [("caption", .str a.caption),
        ("confidence", .num a.confidence),
        ("dense_captions", .arr (a.dense_captions.map
          (fun d => .obj [("text", .str d.text), ("confidence", .num d.confidence)]))),
        ("tags", .arr (a.tags.map
          (fun t => .obj [("name", .str t.name), ("confidence", .num t.confidence)]))),
        ("objects", .arr (a.objects.map
          (fun o => .obj [("name", .str o.name), ("confidence", .num o.confidence),
                          ("bounding_box", boundingBoxToJson o.bounding_box)])))]

/-- JSON serialization of a processed record, as _save_result writes it. -/
def recordToJson : ProcessedRecord → Json
  | .success ts p a g =>
    .obj [("timestamp", .str ts), ("image_path", .str p),
          ("analysis", analysisToJson a), ("generated_text", .str g)]
  | .failure ts p e =>
    .obj [("timestamp", .str ts), ("image_path", .str p), ("error", .str e)]

/-- A file as _save_result writes it: the output path, the text encoding of the
open call, the ensure_ascii and indent arguments of the json.dump call, and the
serialized content. -/
structure WrittenFile where
  path : String
  encoding : String
  ensure_ascii : Bool
  indent : Nat
  content : Json

/-- _save_result (main.py lines 318-335), successful case: computes the output
path from the image base name and int(time.time()), then writes the record JSON
with open(output_path, w, encoding=utf-8) and json.dump(result, f,
ensure_ascii=False, indent=4). -/
def save_result (result : ProcessedRecord) (image_path : String)
    (unixTime : Nat) : WrittenFile :=
  { path := savePath image_path unixTime, encoding := "utf-8",
    ensure_ascii := false, indent := 4, content := recordToJson result }

/-- Outcome of the file write in _save_result. -/
inductive SaveOutcome where
  | ok
  | raises (msg : String)
deriving DecidableEq

/-- The external effects one process_image call can observe: the vision
outcome, the chat outcome, whether the file write raises, the two
datetime.now() reads (ISO strings, the second one taken in the except branch)
and the int(time.time()) read of _save_result. -/
structure World where
  vision : VisionOutcome
  chat : ChatOutcome
  save : SaveOutcome
  nowIso : String
  nowIsoErr : String
  unixTime : Nat

/-- process_image (main.py lines 280-316) together with _save_result (lines
318-335): returns the record the Python function returns, paired with the list
of output files the call writes (path and JSON content).  Every exception from
any stage lands in the except branch and becomes the error-variant record,
with no file written. -/
def process_image (image_path : String) (w : World) : ProcessedRecord × List (String × Json) :=
  match analyze_image w.vision with
  | .error e => (.failure w.nowIsoErr image_path e, [])
  | .ok analysis_result =>
    match generate_text w.chat with
    | .error e => (.failure w.nowIsoErr image_path e, [])
    | .ok generated_text =>
      let result := ProcessedRecord.success w.nowIso image_path analysis_result generated_text
      match w.save with
      | .raises e => (.failure w.nowIsoErr image_path e, [])
      | .ok => (result, [(savePath image_path w.unixTime, recordToJson result)])

/-- The fixed extension list of process_all_images (main.py line 342). -/
def image_extensions : List String := [".jpg", ".jpeg", ".png", ".bmp", ".gif"]

/-- Character-wise lowercasing, modelling the Python str.lower applied to a
file name. -/
def strLower (s : String) : String := String.mk (s.data.map Char.toLower)

/-- os.path.join of the fixed input directory and a listed file name (a
listdir entry contains no slash). -/
def joinInput (f : String) : String := "input/" ++ f

/-- What one run of process_all_images produces: whether the no-images message
was reported, the records returned by the process_image calls in order, and
all files written. -/
structure BatchResult where
  reportedNoImages : Bool
  records : List ProcessedRecord
  written : List (String × Json)

/-- process_all_images (main.py lines 337-360): filter the listed files by the
extension of the lowercased name, then process each match sequentially; an
empty match set is reported and nothing is processed or written. -/
def process_all_images (files : List String) (worlds : String → World) : BatchResult :=
  let image_files := files.filter
    (fun f => image_extensions.contains (splitext (strLower f)).2)
  if image_files.isEmpty then
    { reportedNoImages := true, records := [], written := [] }
  else
    let results := image_files.map (fun f => process_image (joinInput f) (worlds (joinInput f)))
    { reportedNoImages := false, records := results.map Prod.fst,
      written := (results.map Prod.snd).flatten }

/-- The example configuration written when the config file is missing
(main.py lines 58-69). -/
def example_config : Json :=
  .obj [("vision", .obj
          [("endpoint", .str "https://your-vision-service.cognitiveservices.azure.com/"),
           ("api_key", .str "your-vision-api-key")]),
        ("openai", .obj
          [("endpoint", .str "https://your-openai-service.openai.azure.com/"),
           ("api_key", .str "your-openai-api-key"),
           ("api_version", .str "2023-12-01-preview"),
           ("deployment_name", .str "gpt-4o")])]

/-- State of the configuration file at the given path. -/
inductive ConfigFileState where
  | present (parsed : Json)
  | malformed (msg : String)
  | missing

/-- Result of _load_config: the parsed config, or the process halted by
exit(1) after the template was written to the path, or an uncaught
JSONDecodeError. -/
inductive LoadConfigResult where
  | loaded (cfg : Json)
  | haltedAfterWritingTemplate (path : String) (written : Json)
  | parseError (msg : String)

/-- _load_config (main.py lines 41-76): parse the file; on FileNotFoundError
write the example config to the path, print instructions and call exit(1); a
malformed file raises JSONDecodeError, which is not caught. -/
def load_config (config_path : String) : ConfigFileState → LoadConfigResult
  | .present parsed => .loaded parsed
  | .malformed msg => .parseError msg
  | .missing => .haltedAfterWritingTemplate config_path example_config

/-- Outcome of a whole run in directory mode. -/
inductive RunOutcome where
  | haltedConfigMissing (templatePath : String) (template : Json)
  | crashedConfigParse (msg : String)
  | completed (batch : BatchResult)

/-- One full run in directory mode (main, the constructor, then
process_all_images): the constructor loads the configuration before any other
step, so when the file is missing the process exits before any image is
touched or any output written. -/
def runBatch (config_path : String) (fs : ConfigFileState) (files : List String)
    (worlds : String → World) : RunOutcome :=
  match load_config config_path fs with
  | .haltedAfterWritingTemplate p t => .haltedConfigMissing p t
  | .parseError m => .crashedConfigParse m
  | .loaded _ => .completed (process_all_images files worlds)

/-- All confidence values of a normalized analysis. -/
def AnalysisResult.confidences (a : AnalysisResult) : List Rat :=
  a.confidence :: (a.dense_captions.map DenseCaption.confidence ++
    a.tags.map TagResult.confidence ++ a.objects.map DetectedObject.confidence)

/-- All confidence values of a new-API response. -/
def NewVisionResult.confidences (r : NewVisionResult) : List Rat :=
  (match r.caption with
    | some c => [c.confidence]
    | none => []) ++
  (r.dense_captions.getD []).map DenseCaption.confidence ++
  (r.tags.getD []).map TagResult.confidence ++
  (r.objects.getD []).map DetectedObject.confidence

/-- All confidence values of a legacy three-call response. -/
def legacyConfidences (d : DescribeResults) (t : TagsResults)
    (o : DetectObjectsResults) : List Rat :=
  d.captions.map CaptionResult.confidence ++ t.tags.map LegacyTag.confidence ++
    o.objects.map LegacyObject.confidence

/-- All confidence values reported by the vision service in an outcome. -/
def VisionOutcome.confidences : VisionOutcome → List Rat
  | .raises _ => []
  | .newApi r => r.confidences
  | .legacyApi d t o => legacyConfidences d t o

/-- Shape of a serialized dense-caption item. -/
def denseCaptionShaped : Json → Bool
  | .obj [("text", .str _), ("confidence", .num _)] => true
  | _ => false

/-- Shape of a serialized tag item. -/
def tagShaped : Json → Bool
  | .obj [("name", .str _), ("confidence", .num _)] => true
  | _ => false

/-- Shape of a serialized object item, with the unified bounding-box names. -/
def objectShaped : Json → Bool
  | .obj [("name", .str _), ("confidence", .num _),
          ("bounding_box", .obj [("x", .num _), ("y", .num _),
                                 ("width", .num _), ("height", .num _)])] => true
  | _ => false

/-- The normalized shape both vision strategies must produce: exactly the five
analysis keys, with every list element of the required item shape. -/
def analysisShaped : Json → Bool
  | .obj [("caption", .str _), ("confidence", .num _),
          ("dense_captions", .arr ds), ("tags", .arr ts), ("objects", .arr os)] =>
    ds.all denseCaptionShaped && ts.all tagShaped && os.all objectShaped
  | _ => false

/-- The section-qualified names of the endpoint and api_key fields of a
configuration JSON object. -/
def endpointKeyFieldNames (j : Json) : List String :=
  match j with
  | .obj sections =>
    (sections.map (fun sv =>
      match sv.2 with
      | .obj fields => fields.filterMap (fun kv =>
          if kv.1 = "endpoint" ∨ kv.1 = "api_key" then some (sv.1 ++ "." ++ kv.1) else none)
      | _ => [])).flatten
  | _ => []

/-! Concrete data used by the claim witnesses and counterexamples. -/

/-- A world where the vision call raises a network error. -/
def wC1 : World :=
  { vision := .raises "Connection refused", chat := .returns "unused",
    save := .ok, nowIso := "2026-10-12T00:00:00", nowIsoErr := "2026-10-12T00:00:01",
    unixTime := 1760227200 }

/-- A concrete new-API response. -/
def nvrC2 : NewVisionResult :=
  { caption := some { text := "a cat", confidence := 92/100 },
    dense_captions := some [{ text := "a cat on a chair", confidence := 9/10 }],
    tags := some [{ name := "cat", confidence := 95/100 }],
    objects := some [{ name := "cat", confidence := 88/100,
                       bounding_box := { x := 10, y := 20, width := 100, height := 120 } }] }

/-- A world where only the completion call fails. -/
def wC2 : World :=
  { vision := .newApi nvrC2, chat := .raises "timeout", save := .ok,
    nowIso := "2026-10-12T01:00:00", nowIsoErr := "2026-10-12T01:00:01",
    unixTime := 1760228000 }

/-- The new-API response of the example scenario of the specification. -/
def nvrC4 : NewVisionResult :=
  { caption := some { text := "a cat sitting on a chair", confidence := 92/100 },
    dense_captions := some [{ text := "a cat", confidence := 9/10 }],
    tags := some [{ name := "cat", confidence := 95/100 }, { name := "chair", confidence := 9/10 },
                  { name := "indoor", confidence := 8/10 }],
    objects := some [{ name := "cat", confidence := 88/100,
                       bounding_box := { x := 10, y := 20, width := 100, height := 120 } }] }

/-- A fully successful world for the example scenario. -/
def wC4 : World :=
  { vision := .newApi nvrC4, chat := .returns "Uma descrição em quatro partes.",
    save := .ok, nowIso := "2026-10-12T03:00:00", nowIsoErr := "2026-10-12T03:00:01",
    unixTime := 1760230000 }

/-- A small new-API response with integral confidences. -/
def nvrC6 : NewVisionResult :=
  { caption := some { text := "a dog", confidence := 1 },
    dense_captions := some [], tags := some [], objects := some [] }

/-- First of two successful runs landing in the same unix second. -/
def wC6a : World :=
  { vision := .newApi nvrC6, chat := .returns "primeira descrição", save := .ok,
    nowIso := "2026-10-12T02:00:00", nowIsoErr := "2026-10-12T02:00:01",
    unixTime := 1700000000 }

/-- Second of two successful runs landing in the same unix second. -/
def wC6b : World :=
  { vision := .newApi nvrC6, chat := .returns "segunda descrição", save := .ok,
    nowIso := "2026-10-12T02:00:05", nowIsoErr := "2026-10-12T02:00:06",
    unixTime := 1700000000 }

/-- A new-API response carrying nothing in any field. -/
def emptyNvr : NewVisionResult :=
  { caption := none, dense_captions := none, tags := none, objects := none }

/-- The fully defaulted analysis. -/
def emptyAnalysis : AnalysisResult :=
  { caption := "", confidence := 0, dense_captions := [], tags := [], objects := [] }

/-! Helper lemmas about the embedding. -/

/-- Decode a least-significant-first decimal digit list. -/
def decodeDigitsRev : List Nat → Nat
  | [] => 0
  | d :: ds => d + 10 * decodeDigitsRev ds

/-- Decode the decimal rendering of a number back to the number. -/
def reprDecode (s : String) : Nat :=
  decodeDigitsRev ((s.data.map (fun c => c.toNat - 48)).reverse)

lemma decode_natDigitsRevFuel : ∀ fuel n : Nat, n < fuel →
    decodeDigitsRev (natDigitsRevFuel fuel n) = n := by
  intro fuel
  induction fuel with
  | zero => intro n h; omega
  | succ k ih =>
    intro n h
    by_cases h10 : n < 10
    · simp [natDigitsRevFuel, h10, decodeDigitsRev]
    · have hdiv : n / 10 < k := by omega
      simp [natDigitsRevFuel, h10, decodeDigitsRev, ih (n / 10) hdiv]
      omega

lemma natDigitsRevFuel_lt_ten : ∀ fuel n : Nat, n < fuel →
    ∀ d ∈ natDigitsRevFuel fuel n, d < 10 := by
  intro fuel
  induction fuel with
  | zero => intro n h; omega
  | succ k ih =>
    intro n h d hd
    by_cases h10 : n < 10
    · simp [natDigitsRevFuel, h10] at hd
      omega
    · have hdiv : n / 10 < k := by omega
      simp [natDigitsRevFuel, h10] at hd
      rcases hd with h1 | h2
      · omega
      · exact ih (n / 10) hdiv d h2

lemma digitChar_decode : ∀ d : Nat, d < 10 → (digitChar d).toNat - 48 = d := by decide

lemma reprDecode_natRepr (n : Nat) : reprDecode (natRepr n) = n := by
  unfold reprDecode natRepr
  have hd : (String.mk ((natDigitsRev n).reverse.map digitChar)).data
      = (natDigitsRev n).reverse.map digitChar := rfl
  rw [hd, List.map_reverse, List.map_reverse, List.map_map, List.reverse_reverse]
  have hmap : (natDigitsRev n).map ((fun c => c.toNat - 48) ∘ digitChar)
      = (natDigitsRev n).map id := by
    apply List.map_congr_left
    intro d hd'
    have hlt : d < 10 := natDigitsRevFuel_lt_ten (n + 1) n (Nat.lt_succ_self n) d hd'
    simp [digitChar_decode d hlt, Function.comp]
  rw [hmap, List.map_id]
  exact decode_natDigitsRevFuel (n + 1) n (Nat.lt_succ_self n)

lemma natRepr_injective : Function.Injective natRepr := by
  intro m n h
  have h2 := congrArg reprDecode h
  rwa [reprDecode_natRepr, reprDecode_natRepr] at h2

lemma savePath_inj (p : String) (t1 t2 : Nat) (h : t1 ≠ t2) :
    savePath p t1 ≠ savePath p t2 := by
  intro he
  apply h
  have hd := congrArg String.data he
  simp only [savePath, String.data_append, List.append_assoc] at hd
  have h1 := List.append_cancel_left hd
  have h2 := List.append_cancel_left h1
  have h3 := List.append_cancel_left h2
  have h4 := List.append_cancel_right h3
  exact natRepr_injective (String.ext h4)

lemma toLower_eq_dot_iff (c : Char) : Char.toLower c = '.' ↔ c = '.' := by
  constructor
  · intro h
    simp only [Char.toLower] at h
    split at h
    · rename_i hc
      exfalso
      obtain ⟨h1, h2⟩ := hc
      generalize hg : c.toNat = n at h h1 h2
      interval_cases n <;> exact absurd h (by decide)
    · exact h
  · intro h
    subst h
    decide

lemma splitLastDot_map_toLower (l : List Char) :
    splitLastDot (l.map Char.toLower) =
      (splitLastDot l).map (fun pr => (pr.1.map Char.toLower, pr.2.map Char.toLower)) := by
  induction l with
  | nil => rfl
  | cons c cs ih =>
    simp only [List.map_cons, splitLastDot, ih]
    cases h : splitLastDot cs with
    | some pr => simp
    | none =>
      simp only [Option.map_none]
      by_cases hc : c = '.'
      · subst hc
        simp [splitLastDot]
      · have h2 : Char.toLower c ≠ '.' := fun hh => hc ((toLower_eq_dot_iff c).1 hh)
        simp [hc, h2]

lemma any_ne_dot_map_toLower (pre : List Char) :
    (pre.map Char.toLower).any (fun c => c ≠ '.') = pre.any (fun c => c ≠ '.') := by
  induction pre with
  | nil => rfl
  | cons c cs ih =>
    simp only [List.map_cons, List.any_cons, ih]
    have h : (Char.toLower c ≠ '.') ↔ (c ≠ '.') := not_congr (toLower_eq_dot_iff c)
    simp [h]

lemma splitext_strLower (s : String) :
    splitext (strLower s) = (strLower (splitext s).1, strLower (splitext s).2) := by
  unfold splitext strLower
  have hdata : (String.mk (s.data.map Char.toLower)).data = s.data.map Char.toLower := rfl
  rw [hdata, splitLastDot_map_toLower]
  cases h : splitLastDot s.data with
  | none => rfl
  | some pr =>
    obtain ⟨pre, suf⟩ := pr
    by_cases hp : pre.any (fun c => c ≠ '.') = true
    · simp only [Option.map_some', any_ne_dot_map_toLower, hp, if_true]
    · simp only [Bool.not_eq_true] at hp
      simp only [Option.map_some', any_ne_dot_map_toLower, hp]
      rfl

lemma organizeNew_conf_sub (r : NewVisionResult) :
    ∀ q ∈ (organizeNew r).confidences, q ∈ r.confidences ∨ q = 0 := by
  intro q hq
  simp only [organizeNew, AnalysisResult.confidences, List.mem_cons, List.mem_append,
    List.mem_map, List.map_map] at hq
  simp only [NewVisionResult.confidences, List.mem_append, List.mem_map]
  cases hc : r.caption with
  | none =>
    rw [hc] at hq
    aesop
  | some c =>
    rw [hc] at hq
    aesop

lemma organizeLegacy_conf_sub (d : DescribeResults) (t : TagsResults)
    (o : DetectObjectsResults) :
    ∀ q ∈ (organizeLegacy d t o).confidences, q ∈ legacyConfidences d t o ∨ q = 0 := by
  intro q hq
  simp only [organizeLegacy, AnalysisResult.confidences, List.mem_cons, List.mem_append,
    List.mem_map, List.map_map] at hq
  simp only [legacyConfidences, List.mem_append, List.mem_map]
  cases hd : d.captions with
  | nil =>
    rw [hd] at hq
    aesop
  | cons c cs =>
    rw [hd] at hq
    aesop

/-! Theorems settling the claims. -/

lemma process_all_images_eq (files : List String) (worlds : String → World) :
    process_all_images files worlds =
      { reportedNoImages := (files.filter
          (fun f => image_extensions.contains (splitext (strLower f)).2)).isEmpty,
        records := (files.filter
          (fun f => image_extensions.contains (splitext (strLower f)).2)).map
            (fun f => (process_image (joinInput f) (worlds (joinInput f))).1),
        written := ((files.filter
          (fun f => image_extensions.contains (splitext (strLower f)).2)).map
            (fun f => (process_image (joinInput f) (worlds (joinInput f))).2)).flatten } := by
  simp only [process_all_images]
  cases h : files.filter (fun f => image_extensions.contains (splitext (strLower f)).2) with
  | nil => rfl
  | cons a l => simp [List.map_map, Function.comp_def]

lemma batch_records_length (files : List String) (worlds : String → World) :
    (process_all_images files worlds).records.length =
      (files.filter (fun f => image_extensions.contains (splitext (strLower f)).2)).length := by
  rw [process_all_images_eq]
  simp

/-- C1 counterexample: for an image whose vision call raises, process_image writes
no output file at all, so no written output record with an error key exists. -/
theorem C1_counterexample :
    wC1.vision = VisionOutcome.raises "Connection refused" ∧
    (process_image "input/cat.jpg" wC1).2 = [] :=
  ⟨rfl, rfl⟩

/-- C1 amended: for every image whose vision call raises, process_image catches the
exception; the returned record is the error variant whose JSON has exactly the keys
timestamp, image_path and error, so analysis and generated_text are omitted; no
output file is written for that image; and process_all_images still runs
process_image on every selected file, so the run continues rather than aborting. -/
theorem C1_vision_error_handling (p msg : String) (w : World)
    (hv : w.vision = .raises msg) :
    (process_image p w).1 = ProcessedRecord.failure w.nowIsoErr p msg ∧
    (recordToJson (process_image p w).1).keys = ["timestamp", "image_path", "error"] ∧
    (process_image p w).2 = [] ∧
    ∀ (files : List String) (worlds : String → World),
      (process_all_images files worlds).records.length =
        (files.filter (fun f => image_extensions.contains (splitext (strLower f)).2)).length := by
  refine ⟨?_, ?_, ?_, fun files worlds => batch_records_length files worlds⟩ <;>
    simp [process_image, analyze_image, hv, recordToJson, Json.keys]

/-- C1 witness: the amended theorem evaluated on a concrete failing world. -/
theorem C1_vision_error_handling_witness :
    (process_image "input/cat.jpg" wC1).1 =
      ProcessedRecord.failure wC1.nowIsoErr "input/cat.jpg" "Connection refused" ∧
    (recordToJson (process_image "input/cat.jpg" wC1).1).keys =
      ["timestamp", "image_path", "error"] ∧
    (process_image "input/cat.jpg" wC1).2 = [] ∧
    ∀ (files : List String) (worlds : String → World),
      (process_all_images files worlds).records.length =
        (files.filter (fun f => image_extensions.contains (splitext (strLower f)).2)).length :=
  C1_vision_error_handling "input/cat.jpg" "Connection refused" wC1 rfl

/-- C2: when the vision stage succeeds and the completion call raises, generate_text
catches the error and returns the placeholder string, which is non-empty and
contains the error message as a substring; and, the write succeeding, the record
process_image returns is still the success variant carrying the full analysis. -/
theorem C2_completion_failure_recovery (p msg : String) (w : World) (a : AnalysisResult)
    (hv : analyze_image w.vision = .ok a) (hc : w.chat = .raises msg) (hs : w.save = .ok) :
    generate_text w.chat = .ok ("Não foi possível gerar uma descrição. Erro: " ++ msg) ∧
    ("Não foi possível gerar uma descrição. Erro: " ++ msg) ≠ "" ∧
    (∃ pre suf, ("Não foi possível gerar uma descrição. Erro: " ++ msg) = pre ++ msg ++ suf) ∧
    (process_image p w).1 =
      ProcessedRecord.success w.nowIso p a
        ("Não foi possível gerar uma descrição. Erro: " ++ msg) := by
  refine ⟨?_, ?_, ⟨"Não foi possível gerar uma descrição. Erro: ", "", ?_⟩, ?_⟩
  · rw [hc]
    rfl
  · intro h
    have h2 := congrArg String.length h
    rw [String.length_append] at h2
    have h3 : 0 < ("Não foi possível gerar uma descrição. Erro: ").length := by decide
    have h4 : ("" : String).length = 0 := rfl
    omega
  · simp
  · simp [process_image, hv, hc, hs, generate_text]

/-- C2 witness: the theorem evaluated on a concrete world where only the
completion call fails. -/
theorem C2_completion_failure_recovery_witness :
    generate_text wC2.chat = .ok ("Não foi possível gerar uma descrição. Erro: " ++ "timeout") ∧
    ("Não foi possível gerar uma descrição. Erro: " ++ "timeout") ≠ "" ∧
    (∃ pre suf, ("Não foi possível gerar uma descrição. Erro: " ++ "timeout")
      = pre ++ "timeout" ++ suf) ∧
    (process_image "input/cat.jpg" wC2).1 =
      ProcessedRecord.success wC2.nowIso "input/cat.jpg" (organizeNew nvrC2)
        ("Não foi possível gerar uma descrição. Erro: " ++ "timeout") :=
  C2_completion_failure_recovery "input/cat.jpg" "timeout" wC2 (organizeNew nvrC2) rfl rfl rfl

/-- C3 counterexample: the template written for a missing config file has four
placeholder endpoint/key fields, not three. -/
theorem C3_counterexample :
    load_config "config.json" ConfigFileState.missing =
      LoadConfigResult.haltedAfterWritingTemplate "config.json" example_config ∧
    endpointKeyFieldNames example_config =
      ["vision.endpoint", "vision.api_key", "openai.endpoint", "openai.api_key"] ∧
    (endpointKeyFieldNames example_config).length ≠ 3 :=
  ⟨rfl, by decide, by decide⟩

/-- C3 amended: if the configuration file at the given path is missing, the loader
writes the template configuration, which carries the four placeholder endpoint/key
fields, to that path and the process halts immediately, so no image is processed
and no output file is written in that run. -/
theorem C3_missing_config_halts (config_path : String) (files : List String)
    (worlds : String → World) :
    runBatch config_path ConfigFileState.missing files worlds =
      RunOutcome.haltedConfigMissing config_path example_config ∧
    (endpointKeyFieldNames example_config).length = 4 :=
  ⟨rfl, by decide⟩

/-- C4: on a fully successful run for one image (the vision call returns, the
completion call returns, the write succeeds), process_image writes exactly one
output file, holding the JSON of the success record with exactly the keys
timestamp, image_path, analysis and generated_text; the analysis JSON has exactly
the five AnalysisResult keys; and if every confidence reported by the vision
service lies in [0,1] then so does every confidence of the analysis. -/
theorem C4_success_output_wellformed (p content : String) (w : World) (a : AnalysisResult)
    (hv : analyze_image w.vision = .ok a) (hc : w.chat = .returns content)
    (hs : w.save = .ok)
    (hconf : ∀ q ∈ w.vision.confidences, 0 ≤ q ∧ q ≤ 1) :
    (process_image p w).2 =
      [(savePath p w.unixTime, recordToJson (.success w.nowIso p a content))] ∧
    (recordToJson (ProcessedRecord.success w.nowIso p a content)).keys =
      ["timestamp", "image_path", "analysis", "generated_text"] ∧
    (analysisToJson a).keys = ["caption", "confidence", "dense_captions", "tags", "objects"] ∧
    ∀ q ∈ a.confidences, 0 ≤ q ∧ q ≤ 1 := by
  refine ⟨?_, rfl, rfl, ?_⟩
  · simp [process_image, hv, hc, hs, generate_text]
  · intro q hq
    cases hvv : w.vision with
    | raises m =>
      rw [hvv] at hv
      exact absurd hv (by simp [analyze_image])
    | newApi r =>
      rw [hvv] at hv hconf
      have ha : a = organizeNew r := by
        simp [analyze_image] at hv
        exact hv.symm
      subst ha
      rcases organizeNew_conf_sub r q hq with hm | h0
      · exact hconf q (by simpa [VisionOutcome.confidences] using hm)
      · subst h0
        exact ⟨le_refl 0, by norm_num⟩
    | legacyApi d t o =>
      rw [hvv] at hv hconf
      have ha : a = organizeLegacy d t o := by
        simp [analyze_image] at hv
        exact hv.symm
      subst ha
      rcases organizeLegacy_conf_sub d t o q hq with hm | h0
      · exact hconf q (by simpa [VisionOutcome.confidences] using hm)
      · subst h0
        exact ⟨le_refl 0, by norm_num⟩

/-- C4 witness: the theorem evaluated on the concrete example scenario. -/
theorem C4_success_output_wellformed_witness :
    (process_image "input/cat.jpg" wC4).2 =
      [(savePath "input/cat.jpg" wC4.unixTime,
        recordToJson (.success wC4.nowIso "input/cat.jpg" (organizeNew nvrC4)
          "Uma descrição em quatro partes."))] ∧
    (recordToJson (ProcessedRecord.success wC4.nowIso "input/cat.jpg" (organizeNew nvrC4)
        "Uma descrição em quatro partes.")).keys =
      ["timestamp", "image_path", "analysis", "generated_text"] ∧
    (analysisToJson (organizeNew nvrC4)).keys =
      ["caption", "confidence", "dense_captions", "tags", "objects"] ∧
    ∀ q ∈ (organizeNew nvrC4).confidences, 0 ≤ q ∧ q ≤ 1 :=
  C4_success_output_wellformed "input/cat.jpg" "Uma descrição em quatro partes." wC4
    (organizeNew nvrC4) rfl rfl rfl (by
      show ∀ q ∈ ([92/100, 9/10, 95/100, 9/10, 8/10, 88/100] : List Rat), 0 ≤ q ∧ q ≤ 1
      norm_num [List.forall_mem_cons])

/-- C5: both vision strategies produce the same normalized shape: the serialized
analysis of either branch is an object with exactly the keys caption, confidence,
dense_captions, tags and objects, whose list elements have exactly the item keys
text/confidence, name/confidence and name/confidence/bounding_box with x, y,
width, height; and the legacy names object_property, rectangle.w and rectangle.h
are mapped to the unified names. -/
theorem C5_strategy_shapes_agree (r : NewVisionResult) (d : DescribeResults)
    (t : TagsResults) (o : DetectObjectsResults) :
    analysisShaped (analysisToJson (organizeNew r)) = true ∧
    analysisShaped (analysisToJson (organizeLegacy d t o)) = true ∧
    (organizeLegacy d t o).objects = o.objects.map (fun ob =>
      { name := ob.object_property, confidence := ob.confidence,
        bounding_box := { x := ob.rectangle.x, y := ob.rectangle.y,
                          width := ob.rectangle.w, height := ob.rectangle.h } }) ∧
    (organizeNew r).objects = (r.objects.getD []).map (fun ob =>
      { name := ob.name, confidence := ob.confidence,
        bounding_box := { x := ob.bounding_box.x, y := ob.bounding_box.y,
                          width := ob.bounding_box.width,
                          height := ob.bounding_box.height } }) := by
  refine ⟨?_, ?_, rfl, rfl⟩ <;>
    simp [analysisToJson, analysisShaped, organizeNew, organizeLegacy, List.all_eq_true,
      List.mem_map, denseCaptionShaped, tagShaped, objectShaped, boundingBoxToJson]

/-- C6 counterexample: two successful runs on the same image within the same unix
second write to the same output path, so a re-run does not always produce a new
file with a different timestamp suffix; the second write overwrites the first. -/
theorem C6_counterexample :
    (process_image "input/cat.jpg" wC6a).2.map Prod.fst = ["output/cat_1700000000.json"] ∧
    (process_image "input/cat.jpg" wC6b).2.map Prod.fst = ["output/cat_1700000000.json"] ∧
    (process_image "input/cat.jpg" wC6a).1 ≠ (process_image "input/cat.jpg" wC6b).1 :=
  ⟨rfl, rfl, by decide⟩

/-- C6 amended: every successfully processed record is serialized by save_result to
exactly one output file, at the path output/<base name stem>_<unix timestamp>.json,
opened with encoding utf-8 and dumped with ensure_ascii False (non-ASCII preserved)
and indent 4 (pretty-printed); two runs whose int(time.time()) reads differ write
to different paths, so a re-run in a different unix second produces a new file
rather than overwriting, while runs in the same unix second reuse the same path
and the later write overwrites. -/
theorem C6_output_naming (p content : String) (w : World) (a : AnalysisResult)
    (hv : analyze_image w.vision = .ok a) (hg : generate_text w.chat = .ok content)
    (hs : w.save = .ok) :
    (process_image p w).2 =
      [((save_result (.success w.nowIso p a content) p w.unixTime).path,
        (save_result (.success w.nowIso p a content) p w.unixTime).content)] ∧
    (save_result (.success w.nowIso p a content) p w.unixTime).path =
      "output/" ++ (splitext (basename p)).1 ++ "_" ++ natRepr w.unixTime ++ ".json" ∧
    (save_result (.success w.nowIso p a content) p w.unixTime).encoding = "utf-8" ∧
    (save_result (.success w.nowIso p a content) p w.unixTime).ensure_ascii = false ∧
    (save_result (.success w.nowIso p a content) p w.unixTime).indent = 4 ∧
    (∀ t1 t2 : Nat, t1 ≠ t2 → savePath p t1 ≠ savePath p t2) := by
  refine ⟨?_, rfl, rfl, rfl, rfl, fun t1 t2 h => savePath_inj p t1 t2 h⟩
  simp [process_image, hv, hg, hs, save_result]

/-- C6 witness: the amended theorem evaluated on a concrete successful world. -/
theorem C6_output_naming_witness :
    (process_image "input/cat.jpg" wC6a).2 =
      [((save_result (.success wC6a.nowIso "input/cat.jpg" (organizeNew nvrC6)
            "primeira descrição") "input/cat.jpg" wC6a.unixTime).path,
        (save_result (.success wC6a.nowIso "input/cat.jpg" (organizeNew nvrC6)
            "primeira descrição") "input/cat.jpg" wC6a.unixTime).content)] ∧
    (save_result (.success wC6a.nowIso "input/cat.jpg" (organizeNew nvrC6)
        "primeira descrição") "input/cat.jpg" wC6a.unixTime).path =
      "output/" ++ (splitext (basename "input/cat.jpg")).1 ++ "_" ++
        natRepr wC6a.unixTime ++ ".json" ∧
    (save_result (.success wC6a.nowIso "input/cat.jpg" (organizeNew nvrC6)
        "primeira descrição") "input/cat.jpg" wC6a.unixTime).encoding = "utf-8" ∧
    (save_result (.success wC6a.nowIso "input/cat.jpg" (organizeNew nvrC6)
        "primeira descrição") "input/cat.jpg" wC6a.unixTime).ensure_ascii = false ∧
    (save_result (.success wC6a.nowIso "input/cat.jpg" (organizeNew nvrC6)
        "primeira descrição") "input/cat.jpg" wC6a.unixTime).indent = 4 ∧
    (∀ t1 t2 : Nat, t1 ≠ t2 → savePath "input/cat.jpg" t1 ≠ savePath "input/cat.jpg" t2) :=
  C6_output_naming "input/cat.jpg" "primeira descrição" wC6a (organizeNew nvrC6) rfl rfl rfl

/-- C7: process_all_images selects exactly the listed files whose extension matches
the fixed extension set case-insensitively; it runs process_image on each selected
file sequentially in list order on the joined input path; the no-images message is
reported exactly when the selection is empty, and the files written are exactly
those of the per-image calls, so an empty selection writes nothing. -/
theorem C7_batch_selection (files : List String) (worlds : String → World) :
    (∀ f, f ∈ files.filter (fun g => image_extensions.contains (splitext (strLower g)).2) ↔
      f ∈ files ∧ strLower (splitext f).2 ∈ image_extensions) ∧
    (process_all_images files worlds).records =
      (files.filter (fun g => image_extensions.contains (splitext (strLower g)).2)).map
        (fun f => (process_image (joinInput f) (worlds (joinInput f))).1) ∧
    (process_all_images files worlds).reportedNoImages =
      (files.filter (fun g => image_extensions.contains (splitext (strLower g)).2)).isEmpty ∧
    (process_all_images files worlds).written =
      ((files.filter (fun g => image_extensions.contains (splitext (strLower g)).2)).map
        (fun f => (process_image (joinInput f) (worlds (joinInput f))).2)).flatten := by
  refine ⟨?_, ?_, ?_, ?_⟩
  · intro f
    rw [List.mem_filter]
    have h2 : (splitext (strLower f)).2 = strLower (splitext f).2 := by
      rw [splitext_strLower]
    rw [h2]
    simp
  · rw [process_all_images_eq]
  · rw [process_all_images_eq]
  · rw [process_all_images_eq]

/-- C8: when the vision service returns nothing for any field, either strategy of
analyze_image returns, without raising, the fully defaulted analysis: empty
caption, zero confidence, and empty dense-caption, tag and object lists. -/
theorem C8_empty_defaults (r : NewVisionResult) (d : DescribeResults)
    (t : TagsResults) (o : DetectObjectsResults)
    (h1 : r.caption = none) (h2 : r.dense_captions = none) (h3 : r.tags = none)
    (h4 : r.objects = none) (h5 : d.captions = []) (h6 : t.tags = []) (h7 : o.objects = []) :
    analyze_image (.newApi r) =
      .ok { caption := "", confidence := 0, dense_captions := [], tags := [], objects := [] } ∧
    analyze_image (.legacyApi d t o) =
      .ok { caption := "", confidence := 0, dense_captions := [], tags := [], objects := [] } := by
  constructor
  · simp [analyze_image, organizeNew, h1, h2, h3, h4]
  · simp [analyze_image, organizeLegacy, h5, h6, h7]

/-- C8 witness: the theorem evaluated on the empty responses of both strategies. -/
theorem C8_empty_defaults_witness :
    analyze_image (.newApi emptyNvr) = .ok emptyAnalysis ∧
    analyze_image (.legacyApi { captions := [] } { tags := [] } { objects := [] }) =
      .ok emptyAnalysis :=
  C8_empty_defaults emptyNvr { captions := [] } { tags := [] } { objects := [] }
    rfl rfl rfl rfl rfl rfl rfl

/-- C9: for every image path and every outcome of the two service calls and of the
file write, process_image returns a record rather than propagating an exception,
and the record is either the success variant, whose JSON has exactly the keys
timestamp, image_path, analysis and generated_text, or the error variant, whose
JSON has exactly the keys timestamp, image_path and error. -/
theorem C9_process_image_total (p : String) (w : World) :
    (∃ a g, (process_image p w).1 = ProcessedRecord.success w.nowIso p a g ∧
      (recordToJson (process_image p w).1).keys =
        ["timestamp", "image_path", "analysis", "generated_text"]) ∨
    (∃ e, (process_image p w).1 = ProcessedRecord.failure w.nowIsoErr p e ∧
      (recordToJson (process_image p w).1).keys = ["timestamp", "image_path", "error"]) := by
  unfold process_image
  cases hv : analyze_image w.vision with
  | error e => right; exact ⟨e, rfl, rfl⟩
  | ok a =>
    cases hg : generate_text w.chat with
    | error e => right; exact ⟨e, rfl, rfl⟩
    | ok g =>
      cases hs : w.save with
      | raises e => right; exact ⟨e, rfl, rfl⟩
      | ok => left; exact ⟨a, g, rfl, rfl⟩

/-- C10: an output file is written only on the full success path: whenever the
returned record is the error variant the write list is empty, and when it is the
success variant exactly the one file of _save_result was written. -/
theorem C10_write_only_on_success (p : String) (w : World) :
    ((process_image p w).1.isSuccess = false ∧ (process_image p w).2 = []) ∨
    ((process_image p w).1.isSuccess = true ∧ w.save = SaveOutcome.ok ∧
      (process_image p w).2 =
        [(savePath p w.unixTime, recordToJson (process_image p w).1)]) := by
  unfold process_image
  cases hv : analyze_image w.vision with
  | error e => left; exact ⟨rfl, rfl⟩
  | ok a =>
    cases hg : generate_text w.chat with
    | error e => left; exact ⟨rfl, rfl⟩
    | ok g =>
      cases hs : w.save with
      | raises e => left; exact ⟨rfl, rfl⟩
      | ok => right; exact ⟨rfl, rfl, rfl⟩

end AzureVision
